import Mathlib

/-!
Verification of the Sentinel-3 SL_2_LST preparator
(`SSGPToolbox/Preparators/Sentinel3/S3_L2_LST.py`).

The embedding below translates the pure computational core of the module:
the UTM projection selection (`__get_utm_code_from_extent`), the bitwise
cloud-flag decoding, the cloud/water mask compositing, the swath flip and
row-windowing of `__preparation`, the archive-member extraction loop, the
`key_values` dictionary lookups, and the control flow of
`archive_to_geotiff` / `archive_to_npy` around the temporary directory.

Python floats are modelled as rationals (ℚ); the claims under scrutiny are
evaluated at inputs where float rounding plays no role.  `dict.get` is an
association-list lookup returning `Option`.  A Python run that dies with an
uninitialized-local reference is modelled as an `Except` error carrying the
variable's name.
-/

namespace SSGP

/-! ## Projection Selector (`__get_utm_code_from_extent`, lines 66-88)

The source reads `minX, minY, maxX, maxY` out of the extent dictionary,
computes the two centroids, picks the hemisphere base code with
`if y_centroid < 0 then 32700 else 32600`, and the zone with
`int(((x_centroid + 180) / 6.0) % 60) + 1`.  Python's `%` with a positive
right operand returns a value in `[0, b)` (`a - b * floor (a / b)`), and
`int` truncates toward zero. -/

structure Extent where
  minX : ℚ
  minY : ℚ
  maxX : ℚ
  maxY : ℚ
deriving DecidableEq

/-- Python `a % b` on numbers: `a - b * floor (a / b)`. -/
def pymod (a b : ℚ) : ℚ := a - b * ⌊a / b⌋

/-- Python `int(q)`: truncation toward zero. -/
def pyint (q : ℚ) : ℤ := if q < 0 then -⌊-q⌋ else ⌊q⌋

def yCentroid (e : Extent) : ℚ := (e.minY + e.maxY) / 2

def xCentroid (e : Extent) : ℚ := (e.minX + e.maxX) / 2

/-- Source line 74-77: `32700` for a southern centroid, else `32600`. -/
def baseCode (e : Extent) : ℤ := if yCentroid e < 0 then 32700 else 32600

/-- Source line 80: `zone = int(((x_centroid + 180) / 6.0) % 60) + 1`. -/
def zoneFromLon (x : ℚ) : ℤ := pyint (pymod ((x + 180) / 6) 60) + 1

/-- Source line 81: `utm_code = base_code + zone`.  The function is total:
the source performs no degeneracy or sanity check on the extent. -/
def utmCode (e : Extent) : ℤ := baseCode e + zoneFromLon (xCentroid e)

/-- For `0 < b`, Python's `a % b` is `b` times the fractional part of `a / b`. -/
lemma pymod_eq_mul_fract (a b : ℚ) (hb : b ≠ 0) : pymod a b = b * Int.fract (a / b) := by
  unfold pymod Int.fract
  field_simp

lemma pymod_nonneg (a b : ℚ) (hb : 0 < b) : 0 ≤ pymod a b := by
  rw [pymod_eq_mul_fract a b hb.ne.symm]
  exact mul_nonneg hb.le (Int.fract_nonneg _)

lemma pymod_lt (a b : ℚ) (hb : 0 < b) : pymod a b < b := by
  rw [pymod_eq_mul_fract a b hb.ne.symm]
  calc b * Int.fract (a / b) < b * 1 := by
        exact mul_lt_mul_of_pos_left (Int.fract_lt_one _) hb
    _ = b := mul_one b

lemma pyint_of_nonneg (q : ℚ) (h : 0 ≤ q) : pyint q = ⌊q⌋ := by
  unfold pyint
  rw [if_neg (not_lt.mpr h)]

/-- The zone computed from any centroid longitude lies in `[1, 60]`. -/
lemma zoneFromLon_mem (x : ℚ) : 1 ≤ zoneFromLon x ∧ zoneFromLon x ≤ 60 := by
  unfold zoneFromLon
  have h0 : (0 : ℚ) < 60 := by norm_num
  have hnn := pymod_nonneg ((x + 180) / 6) 60 h0
  have hlt := pymod_lt ((x + 180) / 6) 60 h0
  rw [pyint_of_nonneg _ hnn]
  constructor
  · have : (0 : ℤ) ≤ ⌊pymod ((x + 180) / 6) 60⌋ := Int.floor_nonneg.mpr hnn
    omega
  · have : ⌊pymod ((x + 180) / 6) 60⌋ < (60 : ℤ) := by
      rw [Int.floor_lt]
      exact_mod_cast hlt
    omega

/-- Claim C3 counterexample: for the extent `{minX:30, minY:50, maxX:40, maxY:55}`
the code does not return 32637.  The centroid longitude is 35, and
`int(((35 + 180) / 6.0) % 60) + 1 = int(215/6) + 1 = 35 + 1 = 36`, so the
code returns 32636. -/
theorem c3_counterexample : utmCode ⟨30, 50, 40, 55⟩ ≠ 32637 := by
  norm_num [utmCode, baseCode, zoneFromLon, pymod, pyint, xCentroid, yCentroid]

/-- Claim C3 (amended): for the extent `{minX:30, minY:50, maxX:40, maxY:55}`
the Projection Selector computes centroid longitude 35, UTM zone 36 (the
formula `floor(((35 + 180) / 6) mod 60) + 1` evaluates to 36, not 37), and
returns ProjectionCode 32636. -/
theorem c3_zone_for_scenario_extent :
    xCentroid ⟨30, 50, 40, 55⟩ = 35 ∧ zoneFromLon 35 = 36 ∧
      utmCode ⟨30, 50, 40, 55⟩ = 32636 := by
  refine ⟨by norm_num [xCentroid], ?_, ?_⟩
  · norm_num [zoneFromLon, pymod, pyint]
  · norm_num [utmCode, baseCode, zoneFromLon, pymod, pyint, xCentroid, yCentroid]

/-- Claim C4: the ProjectionCode depends only on the extent's centroid
(equal centroids give equal codes), the code splits into the hemisphere
base plus the zone, a centroid latitude `≥ 0` selects the northern base
32600 (latitude exactly 0 included) and `< 0` the southern base 32700, and
centroid longitudes `-180` and `180` give the same zone. -/
theorem c4_code_determined_by_centroid (e₁ e₂ : Extent) :
    (xCentroid e₁ = xCentroid e₂ → yCentroid e₁ = yCentroid e₂ →
        utmCode e₁ = utmCode e₂) ∧
      utmCode e₁ = baseCode e₁ + zoneFromLon (xCentroid e₁) ∧
      (0 ≤ yCentroid e₁ → baseCode e₁ = 32600) ∧
      (yCentroid e₁ < 0 → baseCode e₁ = 32700) ∧
      zoneFromLon (-180) = zoneFromLon 180 := by
  refine ⟨?_, rfl, ?_, ?_, ?_⟩
  · intro hx hy
    unfold utmCode baseCode
    rw [hx, hy]
  · intro h
    unfold baseCode
    rw [if_neg (not_lt.mpr h)]
  · intro h
    unfold baseCode
    rw [if_pos h]
  · norm_num [zoneFromLon, pymod, pyint]

/-- Witness for C4: two distinct extents with the common centroid
`(35, 52.5)` receive the same code, a northern-hemisphere centroid gets
base 32600, and a southern one gets base 32700. -/
theorem c4_witness :
    utmCode ⟨30, 50, 40, 55⟩ = utmCode ⟨25, 45, 45, 60⟩ ∧
      baseCode ⟨30, 50, 40, 55⟩ = 32600 ∧ baseCode ⟨0, -20, 0, 0⟩ = 32700 :=
  ⟨(c4_code_determined_by_centroid ⟨30, 50, 40, 55⟩ ⟨25, 45, 45, 60⟩).1
      (by norm_num [xCentroid]) (by norm_num [yCentroid]),
    (c4_code_determined_by_centroid ⟨30, 50, 40, 55⟩ ⟨30, 50, 40, 55⟩).2.2.1
      (by norm_num [yCentroid]),
    (c4_code_determined_by_centroid ⟨0, -20, 0, 0⟩ ⟨0, -20, 0, 0⟩).2.2.2.1
      (by norm_num [yCentroid])⟩

/-- Claim C7 counterexample: the zero-area extent
`{minX:30, minY:50, maxX:30, maxY:50}` is not rejected; the selector
returns the ProjectionCode 32636 computed from its centroid. -/
theorem c7_counterexample : utmCode ⟨30, 50, 30, 50⟩ = 32636 := by
  norm_num [utmCode, baseCode, zoneFromLon, pymod, pyint, xCentroid, yCentroid]

/-- Claim C7 (amended): the source performs no degeneracy check, so for
every degenerate (zero-width or zero-height) extent the Projection
Selector still returns a ProjectionCode of the usual shape: the hemisphere
base plus a zone in `[1, 60]`, computed from the centroid. -/
theorem c7_degenerate_extent_not_rejected (e : Extent)
    (h : e.minX = e.maxX ∨ e.minY = e.maxY) :
    ∃ z : ℤ, 1 ≤ z ∧ z ≤ 60 ∧ utmCode e = baseCode e + z :=
  ⟨zoneFromLon (xCentroid e), (zoneFromLon_mem (xCentroid e)).1,
    (zoneFromLon_mem (xCentroid e)).2, rfl⟩

/-- Witness for C7 (amended), at the degenerate extent
`{minX:30, minY:50, maxX:30, maxY:50}`. -/
theorem c7_witness :
    ∃ z : ℤ, 1 ≤ z ∧ z ≤ 60 ∧
      utmCode ⟨30, 50, 30, 50⟩ = baseCode ⟨30, 50, 30, 50⟩ + z :=
  c7_degenerate_extent_not_rejected ⟨30, 50, 30, 50⟩ (Or.inl rfl)

/-! ## Flag Decoder (`__preparation`, lines 120-130)

The source builds `bits_map = ['0'] * 16384 + ['A']` and indexes it with
`confidence_in & 16384`, so a confidence pixel is decoded as the character
at position `v &&& 16384` of that 16385-entry table; a pixel is treated as
cloud when the character is `'A'`.  For the Bayesian flags it builds
`bits_map = ['O', 'O', 'A']` and indexes it with `bayes_in & 2`.  Both
indices are always in range (`v &&& 16384` is 0 or 16384, `b &&& 2` is 0
or 2), so the `getD` defaults below are never consulted. -/

def confBitsMap : List Char := List.replicate 16384 '0' ++ ['A']

/-- `bits_map[confidence_in & 16384]`, elementwise. -/
def cloudsConfChar (v : ℕ) : Char := confBitsMap.getD (v &&& 16384) '0'

def bayesBitsMap : List Char := ['O', 'O', 'A']

/-- `bits_map[bayes_in & 2]`, elementwise. -/
def cloudsBayesChar (b : ℕ) : Char := bayesBitsMap.getD (b &&& 2) 'O'

/-- The direct bitwise predicate the spec proposes for the confidence
flags: cloud iff bit 14 (value 16384) is set. -/
def cloudByConfidence (v : ℕ) : Prop := v &&& 16384 ≠ 0

/-- The direct bitwise predicate the spec proposes for the Bayesian
flags: cloud iff bit 1 (value 2) is set. -/
def cloudByBayes (b : ℕ) : Prop := b &&& 2 ≠ 0

instance (v : ℕ) : Decidable (cloudByConfidence v) := by
  unfold cloudByConfidence
  infer_instance

instance (b : ℕ) : Decidable (cloudByBayes b) := by
  unfold cloudByBayes
  infer_instance

lemma and_16384_cases (v : ℕ) : v &&& 16384 = 0 ∨ v &&& 16384 = 16384 := by
  have h := Nat.and_two_pow v 14
  norm_num at h
  rcases Bool.eq_false_or_eq_true (v.testBit 14) with ht | ht <;>
    rw [ht] at h <;> simp at h <;> omega

lemma and_2_cases (b : ℕ) : b &&& 2 = 0 ∨ b &&& 2 = 2 := by
  have h := Nat.and_two_pow b 1
  norm_num at h
  rcases Bool.eq_false_or_eq_true (b.testBit 1) with ht | ht <;>
    rw [ht] at h <;> simp at h <;> omega

lemma cloudsConfChar_eq (v : ℕ) :
    cloudsConfChar v = if v &&& 16384 = 0 then '0' else 'A' := by
  unfold cloudsConfChar confBitsMap
  rcases and_16384_cases v with h | h <;> rw [h]
  · rw [if_pos rfl,
      List.getD_append _ _ _ _ (by rw [List.length_replicate]; norm_num),
      List.getD_eq_getD_get?, List.get?_eq_getElem?]
    exact List.getElem?_getD_replicate_default_eq '0' 16384 0
  · rw [if_neg (by norm_num),
      List.getD_append_right _ _ _ _ (by rw [List.length_replicate]),
      List.length_replicate]
    norm_num

lemma cloudsBayesChar_eq (b : ℕ) :
    cloudsBayesChar b = if b &&& 2 = 0 then 'O' else 'A' := by
  unfold cloudsBayesChar bayesBitsMap
  rcases and_2_cases b with h | h <;> rw [h]
  · rw [if_pos rfl]
    rfl
  · rw [if_neg (by norm_num)]
    rfl

/-- Claim C6: the string-lookup-table decoding is extensionally the direct
bitwise predicate: a confidence value decodes to cloud (`'A'`) iff
`v &&& 16384 ≠ 0`, a Bayesian value decodes to cloud iff `b &&& 2 ≠ 0`;
at the concrete inputs, confidence 16384 is cloud, 0 is not, Bayes 2 is
cloud, 0 is not. -/
theorem c6_lookup_equals_bitwise (v b : ℕ) :
    (cloudsConfChar v = 'A' ↔ cloudByConfidence v) ∧
      (cloudsBayesChar b = 'A' ↔ cloudByBayes b) ∧
      cloudsConfChar 16384 = 'A' ∧ cloudsConfChar 0 ≠ 'A' ∧
      cloudsBayesChar 2 = 'A' ∧ cloudsBayesChar 0 ≠ 'A' := by
  refine ⟨?_, ?_, ?_, ?_, ?_, ?_⟩
  · rw [cloudsConfChar_eq]
    unfold cloudByConfidence
    rcases and_16384_cases v with h | h <;> rw [h] <;> simp
  · rw [cloudsBayesChar_eq]
    unfold cloudByBayes
    rcases and_2_cases b with h | h <;> rw [h] <;> simp
  · rw [cloudsConfChar_eq 16384]
    norm_num
  · rw [cloudsConfChar_eq 0]
    simp
  · rw [cloudsBayesChar_eq 2]
    norm_num
  · rw [cloudsBayesChar_eq 0]
    simp

/-! ## Mask Compositor (`__preparation`, lines 143-156)

numpy boolean-mask assignment is elementwise, so grids are modelled as
functions from an arbitrary pixel-index type.  Source order:
`LST_matrix[clouds_conf_in == 'A'] = gap`, then
`LST_matrix[clouds_bayes_in == 'A'] = gap`, then
`LST_matrix[biome == 0] = skip`; afterwards `div` is `biome` itself when
`biomes_instead_lst` is set, else the masked `LST_matrix`. -/

/-- The three in-place masked assignments applied to `LST_matrix`, in
source order. -/
def maskedLST {Idx : Type} (gap skip : ℚ) (conf bayes biome : Idx → ℕ)
    (lst : Idx → ℚ) : Idx → ℚ :=
  let step1 := fun i => if cloudsConfChar (conf i) = 'A' then gap else lst i
  let step2 := fun i => if cloudsBayesChar (bayes i) = 'A' then gap else step1 i
  fun i => if biome i = 0 then skip else step2 i

/-- Source lines 151-156: the grid handed to flip/window/warp is the raw
biome grid in biome mode, the masked LST grid otherwise. -/
def workingGrid {Idx : Type} (biomesInsteadLst : Bool) (gap skip : ℚ)
    (conf bayes biome : Idx → ℕ) (lst : Idx → ℚ) : Idx → ℚ :=
  if biomesInsteadLst then (fun i => (biome i : ℚ))
  else maskedLST gap skip conf bayes biome lst

/-- Claim C1: the cloud assignments precede the water assignment, so a
pixel that is cloud-flagged (by either decoder) and biome-0 ends as
`skip`, and (when the two sentinels differ) never as `gap`. -/
theorem c1_cloud_before_water {Idx : Type} (gap skip : ℚ)
    (conf bayes biome : Idx → ℕ) (lst : Idx → ℚ) (i : Idx)
    (hc : cloudsConfChar (conf i) = 'A' ∨ cloudsBayesChar (bayes i) = 'A')
    (hw : biome i = 0) :
    maskedLST gap skip conf bayes biome lst i = skip ∧
      (gap ≠ skip → maskedLST gap skip conf bayes biome lst i ≠ gap) := by
  have hv : maskedLST gap skip conf bayes biome lst i = skip := by
    simp [maskedLST, hw]
  exact ⟨hv, fun hne => by rw [hv]; exact fun h => hne h.symm⟩

/-- Witness for C1: a single-pixel grid, cloud-flagged by the Bayesian
decoder (`bayes = 2`) and classified as open water (`biome = 0`), with the
default sentinels `gap = -100`, `skip = -200`: the composited value is
`-200`, not `-100`. -/
theorem c1_witness :
    maskedLST (-100) (-200) (fun _ : Unit => 0) (fun _ => 2) (fun _ => 0)
        (fun _ => 285) () = -200 ∧
      ((-100 : ℚ) ≠ -200 →
        maskedLST (-100) (-200) (fun _ : Unit => 0) (fun _ => 2) (fun _ => 0)
          (fun _ => 285) () ≠ -100) :=
  c1_cloud_before_water (-100) (-200) (fun _ : Unit => 0) (fun _ => 2)
    (fun _ => 0) (fun _ => 285) () (Or.inr rfl) rfl

/-- Claim C2 counterexample: in biome mode (`biomes_instead_lst = true`),
a pixel that is cloud-flagged (Bayes value 2 decodes to `'A'`) and has
biome category 5 keeps the raw value 5 in the working grid; the claim
requires it to be the `gap` sentinel `-100`. -/
theorem c2_counterexample :
    cloudsBayesChar 2 = 'A' ∧
      workingGrid true (-100) (-200) (fun _ : Unit => 0) (fun _ => 2)
          (fun _ => 5) (fun _ => 285) () = 5 ∧
      ((5 : ℚ) ≠ -100) :=
  ⟨rfl, rfl, by norm_num⟩

/-- Claim C2 (amended): in biome mode the working grid is the raw biome
grid; the cloud/water masking is applied only to the LST matrix, so the
biome-mode grid is independent of the flag grids, the LST grid and the
sentinels, and every pixel keeps its biome category value. -/
theorem c2_biome_mode_grid_is_raw_biome {Idx : Type}
    (gap skip gap' skip' : ℚ) (conf bayes conf' bayes' biome : Idx → ℕ)
    (lst lst' : Idx → ℚ) (i : Idx) :
    workingGrid true gap skip conf bayes biome lst i = (biome i : ℚ) ∧
      workingGrid true gap skip conf bayes biome lst i =
        workingGrid true gap' skip' conf' bayes' biome lst' i ∧
      workingGrid false gap skip conf bayes biome lst i =
        maskedLST gap skip conf bayes biome lst i :=
  ⟨rfl, rfl, rfl⟩

/-! ## Swath Windower (`__preparation`, lines 157-172)

The source flips `div`, `lat`, `long` along axis 0 (`np.flip`, modelled by
`List.reverse` on the row lists), collects the row indices containing any
latitude above `maxY + 10` (`wrong_raws_1`) or below `minY - 10`
(`wrong_raws_2`), and deletes the union of those indices from all three
grids (`np.delete`, which drops each listed index once, in order). -/

/-- A row is disqualified when it holds a latitude above `hi` or below
`lo` — membership in `wrong_raws_1 ∪ wrong_raws_2`. -/
def rowOutOfWindow (lo hi : ℚ) (row : List ℚ) : Bool :=
  row.any (fun x => hi < x) || row.any (fun x => x < lo)

/-- `np.delete(g, wrong_raws, axis=0)` with `wrong_raws` given as a
per-row Boolean marking: keep exactly the unmarked rows, in order. -/
def deleteRows {α : Type} : List Bool → List α → List α
  | [], gs => gs
  | _ :: _, [] => []
  | b :: ms, a :: gs =>
      if b then deleteRows ms gs else a :: deleteRows ms gs

/-- Flip all three grids, then delete the disqualified rows (computed from
the flipped latitude grid) from all three. -/
def windowGrids (lo hi : ℚ) (div lats lons : List (List ℚ)) :
    List (List ℚ) × List (List ℚ) × List (List ℚ) :=
  let d := div.reverse
  let la := lats.reverse
  let ln := lons.reverse
  let marks := la.map (rowOutOfWindow lo hi)
  (deleteRows marks d, deleteRows marks la, deleteRows marks ln)

/-- Source lines 162-163: the padded window is
`[minY - 10, maxY + 10]`. -/
def swathWindow (e : Extent) (div lats lons : List (List ℚ)) :
    List (List ℚ) × List (List ℚ) × List (List ℚ) :=
  windowGrids (e.minY - 10) (e.maxY + 10) div lats lons

lemma deleteRows_map_self {α : Type} (p : α → Bool) (l : List α) :
    deleteRows (l.map p) l = l.filter (fun r => !p r) := by
  induction l with
  | nil => rfl
  | cons a t ih =>
    simp only [List.map_cons, List.filter_cons]
    cases hp : p a
    case false => simp [deleteRows, ih]
    case true => simp [deleteRows, ih]

lemma deleteRows_length_eq {α β : Type} (marks : List Bool) :
    ∀ (g : List α) (g' : List β), g.length = marks.length →
      g'.length = marks.length →
      (deleteRows marks g).length = (deleteRows marks g').length := by
  induction marks with
  | nil =>
    intro g g' h h'
    simp only [List.length_nil, List.length_eq_zero] at h h'
    rw [h, h']
    rfl
  | cons b ms ih =>
    intro g g' h h'
    cases g with
    | nil => simp at h
    | cons a t =>
      cases g' with
      | nil => simp at h'
      | cons a' t' =>
        simp only [List.length_cons, Nat.succ.injEq] at h h'
        simp only [deleteRows]
        cases b with
        | false => simp [ih t t' h h']
        | true => simp [ih t t' h h']

/-- Claim C5: after the flip, windowing keeps exactly the rows whose
latitudes all lie within `[minY - 10, maxY + 10]`: no out-of-window row
remains (`all` over the kept latitude rows), the kept latitude grid is the
filter of the flipped latitude grid (so no in-window row is dropped and
order is preserved), the three grids keep equal row counts, and row 0 of
the pre-flip grid is the last row of the post-flip grid. -/
theorem c5_windowing (e : Extent) (div lats lons : List (List ℚ))
    (hd : div.length = lats.length) (hl : lons.length = lats.length) :
    ((swathWindow e div lats lons).2.1).all
        (fun r => !rowOutOfWindow (e.minY - 10) (e.maxY + 10) r) = true ∧
      (swathWindow e div lats lons).2.1 =
        lats.reverse.filter
          (fun r => !rowOutOfWindow (e.minY - 10) (e.maxY + 10) r) ∧
      (swathWindow e div lats lons).1.length =
        (swathWindow e div lats lons).2.1.length ∧
      (swathWindow e div lats lons).2.2.length =
        (swathWindow e div lats lons).2.1.length ∧
      lats.reverse.getLast? = lats.head? := by
  have h2 : (swathWindow e div lats lons).2.1 =
      lats.reverse.filter
        (fun r => !rowOutOfWindow (e.minY - 10) (e.maxY + 10) r) :=
    deleteRows_map_self _ lats.reverse
  refine ⟨?_, h2, ?_, ?_, List.getLast?_reverse lats⟩
  · rw [h2, List.all_eq_true]
    intro r hr
    simpa using List.of_mem_filter hr
  · exact deleteRows_length_eq (lats.reverse.map _) div.reverse lats.reverse
      (by simp [hd]) (by simp)
  · exact deleteRows_length_eq (lats.reverse.map _) lons.reverse lats.reverse
      (by simp [hl]) (by simp)

/-- Witness for C5: extent `{minX:0, minY:40, maxX:10, maxY:50}` (window
`[30, 60]`), latitude rows `[[29], [45], [61]]`: only the row with
latitude 45 survives in all three grids. -/
theorem c5_witness :
    ((swathWindow ⟨0, 40, 10, 50⟩ [[1], [2], [3]] [[29], [45], [61]]
          [[5], [6], [7]]).2.1).all
        (fun r => !rowOutOfWindow ((40 : ℚ) - 10) ((50 : ℚ) + 10) r) =
        true ∧
      (swathWindow ⟨0, 40, 10, 50⟩ [[1], [2], [3]] [[29], [45], [61]]
          [[5], [6], [7]]).2.1 =
        ([[29], [45], [61]] : List (List ℚ)).reverse.filter
          (fun r => !rowOutOfWindow ((40 : ℚ) - 10) ((50 : ℚ) + 10) r) ∧
      (swathWindow ⟨0, 40, 10, 50⟩ [[1], [2], [3]] [[29], [45], [61]]
            [[5], [6], [7]]).1.length =
        (swathWindow ⟨0, 40, 10, 50⟩ [[1], [2], [3]] [[29], [45], [61]]
            [[5], [6], [7]]).2.1.length ∧
      (swathWindow ⟨0, 40, 10, 50⟩ [[1], [2], [3]] [[29], [45], [61]]
            [[5], [6], [7]]).2.2.length =
        (swathWindow ⟨0, 40, 10, 50⟩ [[1], [2], [3]] [[29], [45], [61]]
            [[5], [6], [7]]).2.1.length ∧
      ([[29], [45], [61]] : List (List ℚ)).reverse.getLast? =
        ([[29], [45], [61]] : List (List ℚ)).head? := by
  exact c5_windowing ⟨0, 40, 10, 50⟩ [[1], [2], [3]] [[29], [45], [61]]
    [[5], [6], [7]] rfl rfl

/-! ## Archive member extraction (`__preparation`, lines 98-116)

The source iterates over `archive.namelist()` and, per file, assigns one
of the four locals `geodetic_in`, `LST_in`, `flags_in`,
`LST_ancillary_ds` when the file name ends with the matching suffix (a
later match overwrites an earlier one).  A local never assigned is still
referenced afterwards (`Dataset(flags_in)` on line 116 first), which in
Python raises an uninitialized-local error, not a message about the
archive member.  Python's `str.endswith` is modelled on the underlying
character lists. -/

def pyEndsWith (s suffix : String) : Bool := List.isSuffixOf suffix.data s.data

/-- The four locals of the extraction loop; `none` = never assigned. -/
structure ArchiveBindings where
  geodetic_in : Option String
  LST_in : Option String
  flags_in : Option String
  LST_ancillary_ds : Option String
deriving DecidableEq

/-- One iteration of the `for file in arch_files` loop (lines 102-114). -/
def extractStep (st : ArchiveBindings) (file : String) : ArchiveBindings :=
  if pyEndsWith file "geodetic_in.nc" then { st with geodetic_in := some file }
  else if pyEndsWith file "LST_in.nc" then { st with LST_in := some file }
  else if pyEndsWith file "flags_in.nc" then { st with flags_in := some file }
  else if pyEndsWith file "LST_ancillary_ds.nc" then
    { st with LST_ancillary_ds := some file }
  else st

/-- The whole extraction loop, starting from four unassigned locals. -/
def extractLoop (files : List String) : ArchiveBindings :=
  files.foldl extractStep ⟨none, none, none, none⟩

/-- The failure a Python run actually produces when it reads a local that
was never assigned. -/
inductive PyError where
  | unboundLocal (name : String)
deriving DecidableEq

/-- Reading a loop local: its value when assigned, the uninitialized-local
error otherwise. -/
def readLocal (v : Option String) (name : String) : Except PyError String :=
  match v with
  | some x => Except.ok x
  | none => Except.error (PyError.unboundLocal name)

/-- Lines 116-141 in use order: `flags_in` is read first (line 116), then
`geodetic_in` (132), `LST_in` (137), `LST_ancillary_ds` (140). -/
def openDatasets (st : ArchiveBindings) :
    Except PyError (String × String × String × String) := do
  let f ← readLocal st.flags_in "flags_in"
  let g ← readLocal st.geodetic_in "geodetic_in"
  let l ← readLocal st.LST_in "LST_in"
  let a ← readLocal st.LST_ancillary_ds "LST_ancillary_ds"
  return (f, g, l, a)

lemma extractStep_flags_in (st : ArchiveBindings) (file : String)
    (h : pyEndsWith file "flags_in.nc" = false) :
    (extractStep st file).flags_in = st.flags_in := by
  unfold extractStep
  split_ifs <;> simp_all

lemma extractLoop_flags_in_none (files : List String)
    (h : ∀ f ∈ files, pyEndsWith f "flags_in.nc" = false) :
    (extractLoop files).flags_in = none := by
  suffices hgen : ∀ st : ArchiveBindings, st.flags_in = none →
      (files.foldl extractStep st).flags_in = none by
    exact hgen ⟨none, none, none, none⟩ rfl
  induction files with
  | nil => intro st hst; exact hst
  | cons f t ih =>
    intro st hst
    have hf : pyEndsWith f "flags_in.nc" = false := h f (List.mem_cons_self f t)
    refine ih (fun x hx => h x (List.mem_cons_of_mem f hx)) _ ?_
    rw [extractStep_flags_in st f hf, hst]

/-- Claim C8 counterexample: an archive holding the geodetic, LST and
ancillary members but no `flags_in.nc` member makes the run fail with the
uninitialized-local error for `flags_in` — not with a descriptive message
naming the missing archive member. -/
theorem c8_counterexample :
    openDatasets (extractLoop
        ["S3A/geodetic_in.nc", "S3A/LST_in.nc", "S3A/LST_ancillary_ds.nc"]) =
      Except.error (PyError.unboundLocal "flags_in") := rfl

/-- Claim C8 (amended): when the archive has no member ending in
`flags_in.nc`, the run fails at the first read of the never-assigned
local `flags_in` with an uninitialized-local error; no error naming the
missing archive member is produced. -/
theorem c8_missing_member_hits_unbound_local (files : List String)
    (h : ∀ f ∈ files, pyEndsWith f "flags_in.nc" = false) :
    openDatasets (extractLoop files) =
      Except.error (PyError.unboundLocal "flags_in") := by
  have hnone := extractLoop_flags_in_none files h
  unfold openDatasets
  rw [hnone]
  rfl

/-- Witness for C8 (amended), at the three-member archive listing. -/
theorem c8_witness :
    openDatasets (extractLoop
        ["S3B/geodetic_in.nc", "S3B/LST_in.nc", "S3B/LST_ancillary_ds.nc"]) =
      Except.error (PyError.unboundLocal "flags_in") :=
  c8_missing_member_hits_unbound_local
    ["S3B/geodetic_in.nc", "S3B/LST_in.nc", "S3B/LST_ancillary_ds.nc"]
    (by decide)

/-! ## Temporary-directory discipline (`archive_to_geotiff` lines 240-255,
`archive_to_npy` lines 260-283)

Both methods call `__preparation`, then `gdal.Warp` (`archive_to_npy`
additionally reads the raster back and saves the `.npy`), and only then —
on the straight-line success path — `shutil.rmtree(self.temporary_path,
ignore_errors=True)`.  There is no try/finally: an exception in any stage
propagates before the `rmtree` line is reached.  A stage is modelled as
`Option String` (`none` = returned normally, `some e` = raised `e`). -/

structure RunOutcome where
  raised : Option String
  tempRemoved : Bool
deriving DecidableEq

/-- `archive_to_geotiff`: preparation, then warp, then
`rmtree(ignore_errors=True)` (which itself never raises, but removes
nothing when `rmtreeFails`). -/
def archiveToGeotiffRun (prep warp : Option String) (rmtreeFails : Bool) :
    RunOutcome :=
  match prep with
  | some e => ⟨some e, false⟩
  | none =>
    match warp with
    | some e => ⟨some e, false⟩
    | none => ⟨none, !rmtreeFails⟩

/-- `archive_to_npy`: preparation, warp, read-back/save, then the same
final `rmtree`. -/
def archiveToNpyRun (prep warp save : Option String) (rmtreeFails : Bool) :
    RunOutcome :=
  match prep with
  | some e => ⟨some e, false⟩
  | none =>
    match warp with
    | some e => ⟨some e, false⟩
    | none =>
      match save with
      | some e => ⟨some e, false⟩
      | none => ⟨none, !rmtreeFails⟩

/-- Claim C9 counterexample: when `__preparation` raises (e.g. a corrupt
zip), `archive_to_geotiff` ends without removing the temporary
directory. -/
theorem c9_counterexample :
    (archiveToGeotiffRun (some "BadZipFile") none false).tempRemoved =
      false := rfl

/-- Claim C9 (amended): the temporary directory is removed exactly when
every pipeline stage succeeds (and the best-effort removal itself works);
on any stage failure the `rmtree` line is never reached and the directory
persists.  A removal failure never masks the run's outcome: the `raised`
component is independent of `rmtreeFails`. -/
theorem c9_cleanup_only_on_success (prep warp save : Option String)
    (r : Bool) :
    ((archiveToGeotiffRun prep warp r).tempRemoved = true ↔
        prep = none ∧ warp = none ∧ r = false) ∧
      (archiveToGeotiffRun prep warp r).raised =
        (archiveToGeotiffRun prep warp false).raised ∧
      ((archiveToNpyRun prep warp save r).tempRemoved = true ↔
        prep = none ∧ warp = none ∧ save = none ∧ r = false) ∧
      (archiveToNpyRun prep warp save r).raised =
        (archiveToNpyRun prep warp save false).raised := by
  cases prep <;> cases warp <;> cases save <;> cases r <;>
    simp [archiveToGeotiffRun, archiveToNpyRun]

/-! ## `key_values` lookups (`__init__` line 36, `__preparation` lines
146-149 and 224, `archive_to_geotiff` line 252)

`key_values` is a dictionary; `dict.get` with an absent key returns
`None`.  The constructor's default uses the key `'NoData'` (capital N),
and both warp call sites read `self.key_values.get('NoData')`, while the
constructor's doc comment advertises the key `'noData'`. -/

/-- Python `dict.get` over an association list. -/
def dictGet (kv : List (String × ℚ)) (k : String) : Option ℚ :=
  (kv.find? (fun p => p.1 == k)).map (fun p => p.2)

/-- The default `key_values` of `__init__` (line 36). -/
def defaultKeyValues : List (String × ℚ) :=
  [("gap", -100), ("skip", -200), ("NoData", -32768)]

/-- `self.key_values.get('NoData')` as passed to `gdal.WarpOptions`
(line 224) and `gdal.Warp` (line 252). -/
def warpDstNodata (kv : List (String × ℚ)) : Option ℚ := dictGet kv "NoData"

/-- `self.key_values.get('gap')` (lines 146-147). -/
def gapValue (kv : List (String × ℚ)) : Option ℚ := dictGet kv "gap"

/-- `self.key_values.get('skip')` (line 149). -/
def skipValue (kv : List (String × ℚ)) : Option ℚ := dictGet kv "skip"

/-- Claim C10: the warp no-data sentinel is looked up under `'NoData'`
while gap and skip use `'gap'` and `'skip'`, so a caller passing the
documented lowercase `'noData'` key gets `gap` and `skip` honoured but a
`None` warp no-data value; the capital-N default dictionary does resolve
to `-32768`. -/
theorem c10_nodata_key_capital_n (g s n : ℚ) :
    warpDstNodata [("gap", g), ("skip", s), ("noData", n)] = none ∧
      gapValue [("gap", g), ("skip", s), ("noData", n)] = some g ∧
      skipValue [("gap", g), ("skip", s), ("noData", n)] = some s ∧
      warpDstNodata defaultKeyValues = some (-32768) :=
  ⟨rfl, rfl, rfl, rfl⟩

end SSGP
